import Mathlib

/-!
# Verification of `net/net-close.c` (NuttX graceful socket close)

A shallow embedding of the close path of the NuttX network stack:
the event notifier `netclose_interrupt`, the disconnect coordinator
`netclose_disconnect`, and the orchestrator `net_close`, together with
theorems settling the specified properties.

Machine integers (`uint8` event flags, `d_len`) are modelled as `Nat`
with explicit 8-bit masking where the C code relies on the width.
Pointer fields (`data_private`, `data_event`) are modelled by `Bool`
flags recording whether they are non-NULL; the semaphore inside the
close wait context is modelled by a counter of `sem_post` deliveries.
-/

namespace NetClose

/-- Modelled from the spec: the protocol engine's event bitset includes at
least NEW-DATA, REMOTE-CLOSE and REMOTE-ABORT as distinct bits.  The
numeric values are those of the uIP header `uip.h`, which is not part of
this file. -/
def UIP_NEWDATA : Nat := 2

/-- Modelled from the spec: the REMOTE-CLOSE ("close-request") event bit
of the uIP event bitset. -/
def UIP_CLOSE : Nat := 16

/-- Modelled from the spec: the REMOTE-ABORT event bit of the uIP event
bitset. -/
def UIP_ABORT : Nat := 32

/-- Modelled from the spec: the `EBADF`-equivalent invalid-descriptor
error code (standard `errno.h` value). -/
def EBADF : Nat := 9

/-- NuttX `OK` return value. -/
def OK : Int := 0

/-- NuttX `ERROR` return value. -/
def ERROR : Int := -1

/-- The fields of `struct uip_conn` touched by `net-close.c`:
`data_flags` (the requested-event bitset), `data_private`
(whether a close wait context is attached, i.e. the pointer is
non-NULL) and `data_event` (whether an event callback is installed,
i.e. the function pointer is non-NULL). -/
structure UipConn where
  data_flags : Nat
  data_private : Bool
  data_event : Bool
deriving DecidableEq, Repr

/-- The field of `struct uip_driver_s` touched by `net-close.c`:
the length of pending incoming payload data. -/
structure UipDriver where
  d_len : Nat
deriving DecidableEq, Repr

/-- The state visible to the event notifier `netclose_interrupt`:
the device, the connection record, and the number of `sem_post`
signals delivered so far to the semaphore of the attached
`struct tcp_close_s` wait context. -/
structure IntrState where
  dev : UipDriver
  conn : UipConn
  posts : Nat
deriving DecidableEq, Repr

/-- Shallow embedding of `netclose_interrupt` (net-close.c, lines 88-123).

```c
static uint8 netclose_interrupt(struct uip_driver_s *dev,
                                struct uip_conn *conn, uint8 flags)
{
  struct tcp_close_s *pstate = (struct tcp_close_s *)conn->data_private;
  if (pstate)
    {
      if ((flags & (UIP_CLOSE|UIP_ABORT)) != 0)
        {
          conn->data_flags   = 0;
          conn->data_private = NULL;
          conn->data_event   = NULL;
          sem_post(&pstate->cl_sem);
        }
      else
        {
          dev->d_len = 0;
          return (flags & ~UIP_NEWDATA) | UIP_CLOSE;
        }
    }
  return flags;
}
```

`~UIP_NEWDATA` acts on the 8-bit flags word, so it is embedded as
`255 ^^^ UIP_NEWDATA`. -/
def netclose_interrupt (s : IntrState) (flags : Nat) : IntrState × Nat :=
  if s.conn.data_private then
    if flags &&& (UIP_CLOSE ||| UIP_ABORT) ≠ 0 then
      ({ s with conn := { data_flags := 0, data_private := false, data_event := false },
                posts := s.posts + 1 }, flags)
    else
      ({ s with dev := { d_len := 0 } }, (flags &&& (255 ^^^ UIP_NEWDATA)) ||| UIP_CLOSE)
  else
    (s, flags)

/-- The externally observable actions performed by the close path, in
program order: critical-section enter/exit (`irqsave`/`irqrestore`),
semaphore operations on the close wait context, the writes arming and
disarming the connection record's event-notification slot, the link-layer
TX notification, and the orchestrator's calls into its collaborators. -/
inductive Act where
  | irqsave
  | irqrestore
  | semInit
  | semWait
  | semDestroy
  | setDataFlags (n : Nat)
  | attachCtx
  | installCb
  | txnotify
  | clearDataFlags
  | detachCtx
  | clearCb
  | unlisten
  | tcpfree
  | udpfree
  | release
deriving DecidableEq, Repr

/-- Shallow embedding of `netclose_disconnect` (net-close.c, lines
144-186).  `connected` is the value of `_SS_ISCONNECTED(psock->s_flags)`;
`conn` is the socket's connection record; `itf` models the notifier
activity that may mutate the connection record while the coordinator is
blocked in `sem_wait` (the notifier runs once the task suspends).  The
result is the final connection record together with the trace of actions
the coordinator itself performs, in program order.

```c
static inline void netclose_disconnect(FAR struct socket *psock)
{
  struct tcp_close_s state;
  struct uip_conn *conn;
  irqstate_t flags;

  flags = irqsave();
  if (_SS_ISCONNECTED(psock->s_flags))
    {
       state.cl_psock     = psock;
       sem_init(&state.cl_sem, 0, 0);
       conn               = psock->s_conn;
       conn->data_flags   = UIP_NEWDATA|UIP_CLOSE|UIP_ABORT;
       conn->data_private = (void*)&state;
       conn->data_event   = netclose_interrupt;
       netdev_txnotify(&conn->ripaddr);
       (void)sem_wait(&state.cl_sem);
       sem_destroy(&state.cl_sem);
       conn->data_flags   = 0;
       conn->data_private = NULL;
       conn->data_event   = NULL;
    }
  irqrestore(flags);
}
``` -/
def netclose_disconnect (connected : Bool) (conn : UipConn) (itf : UipConn → UipConn) :
    UipConn × List Act :=
  if connected then
    let armed : UipConn :=
      { data_flags := UIP_NEWDATA ||| UIP_CLOSE ||| UIP_ABORT,
        data_private := true, data_event := true }
    let afterWait := itf armed
    ({ afterWait with data_flags := 0, data_private := false, data_event := false },
     [Act.irqsave, Act.semInit,
      Act.setDataFlags (UIP_NEWDATA ||| UIP_CLOSE ||| UIP_ABORT),
      Act.attachCtx, Act.installCb, Act.txnotify, Act.semWait, Act.semDestroy,
      Act.clearDataFlags, Act.detachCtx, Act.clearCb, Act.irqrestore])
  else
    (conn, [Act.irqsave, Act.irqrestore])

/-- Socket types dispatched by the `switch (psock->s_type)` in
`net_close`: `SOCK_STREAM`, `SOCK_DGRAM`, or any other value (the
`default` case). -/
inductive SockType where
  | sockStream
  | sockDgram
  | other
deriving DecidableEq, Repr

/-- The fields of `struct socket` read by `net_close` and
`netclose_disconnect`: the reference count `s_crefs`, the type
`s_type`, the `_SS_ISCONNECTED` bit of `s_flags`, and the connection
record `s_conn`. -/
structure Socket where
  s_crefs : Int
  s_type : SockType
  connected : Bool
  s_conn : UipConn
deriving Repr

/-- The outcome of `net_close`: the return value (`OK` or `ERROR`),
the errno recorded via `*get_errno_ptr()` on the error path, the final
state of the socket's connection record (when a socket was resolved),
and the trace of collaborator calls in program order. -/
structure CloseResult where
  ret : Int
  errno : Option Nat
  conn : Option UipConn
  trace : List Act
deriving Repr

/-- Shallow embedding of `net_close` (net-close.c, lines 208-255).
`psock` is the result of `sockfd_socket(sockfd)` (`none` models a NULL
pointer); `itf` is passed through to the disconnect coordinator.

```c
int net_close(int sockfd)
{
  FAR struct socket *psock = sockfd_socket(sockfd);
  int err;

  if (!psock || psock->s_crefs <= 0)
    {
      err = EBADF;
      goto errout;
    }

  switch (psock->s_type)
    {
      case SOCK_STREAM:
        {
          struct uip_conn *conn = psock->s_conn;
          uip_unlisten(conn);
          netclose_disconnect(psock);
          uip_tcpfree(conn);
        }
        break;
      case SOCK_DGRAM:
        uip_udpfree(psock->s_conn);
        break;
      default:
        err = EBADF;
        goto errout;
    }

  sockfd_release(sockfd);
  return OK;

errout:
  *get_errno_ptr() = err;
  return ERROR;
}
``` -/
def net_close (psock : Option Socket) (itf : UipConn → UipConn) : CloseResult :=
  match psock with
  | none => { ret := ERROR, errno := some EBADF, conn := none, trace := [] }
  | some s =>
    if s.s_crefs ≤ 0 then
      { ret := ERROR, errno := some EBADF, conn := some s.s_conn, trace := [] }
    else
      match s.s_type with
      | SockType.sockStream =>
        let d := netclose_disconnect s.connected s.s_conn itf
        { ret := OK, errno := none, conn := some d.1,
          trace := Act.unlisten :: (d.2 ++ [Act.tcpfree, Act.release]) }
      | SockType.sockDgram =>
        { ret := OK, errno := none, conn := some s.s_conn,
          trace := [Act.udpfree, Act.release] }
      | SockType.other =>
        { ret := ERROR, errno := some EBADF, conn := some s.s_conn, trace := [] }

/-! ## Theorems -/

/-- C2: for every flags value and every connection record with no wait
context attached (`data_private` is NULL), `netclose_interrupt` returns
the flags unchanged and performs no mutation of the connection record or
the device state. -/
theorem interrupt_no_ctx_noop (s : IntrState) (flags : Nat)
    (h : s.conn.data_private = false) :
    netclose_interrupt s flags = (s, flags) := by
  simp [netclose_interrupt, h]

theorem interrupt_no_ctx_noop_witness :
    netclose_interrupt ⟨⟨5⟩, ⟨7, false, true⟩, 4⟩ 19 = (⟨⟨5⟩, ⟨7, false, true⟩, 4⟩, 19) :=
  interrupt_no_ctx_noop ⟨⟨5⟩, ⟨7, false, true⟩, 4⟩ 19 rfl

/-- C3: with a wait context attached and flags containing `UIP_CLOSE` or
`UIP_ABORT`, `netclose_interrupt` clears the connection's event-request
flags, detaches the wait context, clears the callback reference, signals
the wait context exactly once, returns the flags unchanged, and every
subsequent invocation on the resulting state sees no attached context and
is the identity. -/
theorem interrupt_terminal (s : IntrState) (flags : Nat)
    (hp : s.conn.data_private = true)
    (ht : flags &&& (UIP_CLOSE ||| UIP_ABORT) ≠ 0) :
    (netclose_interrupt s flags).1.conn.data_flags = 0 ∧
    (netclose_interrupt s flags).1.conn.data_private = false ∧
    (netclose_interrupt s flags).1.conn.data_event = false ∧
    (netclose_interrupt s flags).1.posts = s.posts + 1 ∧
    (netclose_interrupt s flags).2 = flags ∧
    ∀ flags2 : Nat,
      netclose_interrupt (netclose_interrupt s flags).1 flags2 =
        ((netclose_interrupt s flags).1, flags2) := by
  refine ⟨?_, ?_, ?_, ?_, ?_, ?_⟩ <;>
    simp [netclose_interrupt, hp, ht]

theorem interrupt_terminal_witness :
    (⟨⟨9⟩, ⟨50, true, true⟩, 0⟩ : IntrState).conn.data_private = true ∧
    (16 : Nat) &&& (UIP_CLOSE ||| UIP_ABORT) ≠ 0 ∧
    ((netclose_interrupt ⟨⟨9⟩, ⟨50, true, true⟩, 0⟩ 16).1.conn.data_flags = 0 ∧
     (netclose_interrupt ⟨⟨9⟩, ⟨50, true, true⟩, 0⟩ 16).1.conn.data_private = false ∧
     (netclose_interrupt ⟨⟨9⟩, ⟨50, true, true⟩, 0⟩ 16).1.conn.data_event = false ∧
     (netclose_interrupt ⟨⟨9⟩, ⟨50, true, true⟩, 0⟩ 16).1.posts = 0 + 1 ∧
     (netclose_interrupt ⟨⟨9⟩, ⟨50, true, true⟩, 0⟩ 16).2 = 16 ∧
     ∀ flags2 : Nat,
       netclose_interrupt (netclose_interrupt ⟨⟨9⟩, ⟨50, true, true⟩, 0⟩ 16).1 flags2 =
         ((netclose_interrupt ⟨⟨9⟩, ⟨50, true, true⟩, 0⟩ 16).1, flags2)) :=
  ⟨rfl, by decide, interrupt_terminal ⟨⟨9⟩, ⟨50, true, true⟩, 0⟩ 16 rfl (by decide)⟩

/-- A bit of the 8-bit word that is set in the mask `253 = ~UIP_NEWDATA`
and clear in `16 = UIP_CLOSE` passes through `(flags & 253) | 16`
unchanged. -/
theorem testBit_mask253_or16 (flags k : Nat)
    (h253 : Nat.testBit 253 k = true) (h16 : Nat.testBit 16 k = false) :
    ((flags &&& 253) ||| 16).testBit k = flags.testBit k := by
  simp [Nat.testBit_lor, Nat.testBit_land, h253, h16]

/-- C4: with a wait context attached and flags containing neither
`UIP_CLOSE` nor `UIP_ABORT`, `netclose_interrupt` never signals the wait
context, zeroes the device's pending data length, and returns
`(flags & ~UIP_NEWDATA) | UIP_CLOSE`: the NEW-DATA bit (bit 1) is masked
out, the close-request bit (bit 4) is asserted, and all other bits of the
8-bit flags word are passed through. -/
theorem interrupt_nonterminal (s : IntrState) (flags : Nat)
    (hp : s.conn.data_private = true)
    (ht : flags &&& (UIP_CLOSE ||| UIP_ABORT) = 0) :
    (netclose_interrupt s flags).1.posts = s.posts ∧
    (netclose_interrupt s flags).1.dev.d_len = 0 ∧
    (netclose_interrupt s flags).2 = (flags &&& (255 ^^^ UIP_NEWDATA)) ||| UIP_CLOSE ∧
    (netclose_interrupt s flags).2.testBit 1 = false ∧
    (netclose_interrupt s flags).2.testBit 4 = true ∧
    ∀ i : Nat, i < 8 → i ≠ 1 → i ≠ 4 →
      (netclose_interrupt s flags).2.testBit i = flags.testBit i := by
  have hd : (255 ^^^ UIP_NEWDATA) = 253 := by decide
  have hc : UIP_CLOSE = 16 := rfl
  have hret0 : (netclose_interrupt s flags).2 =
      (flags &&& (255 ^^^ UIP_NEWDATA)) ||| UIP_CLOSE := by
    simp [netclose_interrupt, hp, ht]
  have hret : (netclose_interrupt s flags).2 = (flags &&& 253) ||| 16 := by
    rw [hret0, hd, hc]
  refine ⟨?_, ?_, hret0, ?_, ?_, ?_⟩
  · simp [netclose_interrupt, hp, ht]
  · simp [netclose_interrupt, hp, ht]
  · rw [hret]
    have b253 : Nat.testBit 253 1 = false := by decide
    have b16 : Nat.testBit 16 1 = false := by decide
    simp [Nat.testBit_lor, Nat.testBit_land, b253, b16]
  · rw [hret]
    have b16 : Nat.testBit 16 4 = true := by decide
    simp [Nat.testBit_lor, b16]
  · intro i hi h1 h4
    rw [hret]
    interval_cases i
    · exact testBit_mask253_or16 flags 0 (by decide) (by decide)
    · exact absurd rfl h1
    · exact testBit_mask253_or16 flags 2 (by decide) (by decide)
    · exact testBit_mask253_or16 flags 3 (by decide) (by decide)
    · exact absurd rfl h4
    · exact testBit_mask253_or16 flags 5 (by decide) (by decide)
    · exact testBit_mask253_or16 flags 6 (by decide) (by decide)
    · exact testBit_mask253_or16 flags 7 (by decide) (by decide)

theorem interrupt_nonterminal_witness :
    (⟨⟨9⟩, ⟨50, true, true⟩, 3⟩ : IntrState).conn.data_private = true ∧
    (3 : Nat) &&& (UIP_CLOSE ||| UIP_ABORT) = 0 ∧
    ((netclose_interrupt ⟨⟨9⟩, ⟨50, true, true⟩, 3⟩ 3).1.posts = 3 ∧
     (netclose_interrupt ⟨⟨9⟩, ⟨50, true, true⟩, 3⟩ 3).1.dev.d_len = 0 ∧
     (netclose_interrupt ⟨⟨9⟩, ⟨50, true, true⟩, 3⟩ 3).2 =
       ((3 : Nat) &&& (255 ^^^ UIP_NEWDATA)) ||| UIP_CLOSE ∧
     (netclose_interrupt ⟨⟨9⟩, ⟨50, true, true⟩, 3⟩ 3).2.testBit 1 = false ∧
     (netclose_interrupt ⟨⟨9⟩, ⟨50, true, true⟩, 3⟩ 3).2.testBit 4 = true ∧
     ∀ i : Nat, i < 8 → i ≠ 1 → i ≠ 4 →
       (netclose_interrupt ⟨⟨9⟩, ⟨50, true, true⟩, 3⟩ 3).2.testBit i =
         (3 : Nat).testBit i) :=
  ⟨rfl, by decide, interrupt_nonterminal ⟨⟨9⟩, ⟨50, true, true⟩, 3⟩ 3 rfl (by decide)⟩

/-- C10 (frame): `netclose_interrupt` modifies the connection record's
`data_flags`/`data_private`/`data_event` (and delivers a signal) exactly
when a wait context is attached and the flags are terminal, and modifies
the device's `d_len` exactly when a wait context is attached and the
flags are non-terminal; in every other respect the connection record and
device state are left unchanged. -/
theorem interrupt_frame (s : IntrState) (flags : Nat) :
    (netclose_interrupt s flags).1.conn =
      (if s.conn.data_private = true ∧ flags &&& (UIP_CLOSE ||| UIP_ABORT) ≠ 0
       then { data_flags := 0, data_private := false, data_event := false }
       else s.conn) ∧
    (netclose_interrupt s flags).1.posts =
      (if s.conn.data_private = true ∧ flags &&& (UIP_CLOSE ||| UIP_ABORT) ≠ 0
       then s.posts + 1 else s.posts) ∧
    (netclose_interrupt s flags).1.dev =
      (if s.conn.data_private = true ∧ flags &&& (UIP_CLOSE ||| UIP_ABORT) = 0
       then { d_len := 0 } else s.dev) := by
  rcases hp : s.conn.data_private with _ | _ <;>
    rcases ht : decide (flags &&& (UIP_CLOSE ||| UIP_ABORT) = 0) with _ | _ <;>
      simp_all [netclose_interrupt]

/-- C7: on a socket that is not connected, `netclose_disconnect` only
enters and leaves the critical section: the connection record is
unchanged and the trace contains no context attach, no event-flag write,
no callback install, no link-layer notification and no blocking wait. -/
theorem disconnect_not_connected_noop (conn : UipConn) (itf : UipConn → UipConn) :
    (netclose_disconnect false conn itf).1 = conn ∧
    (netclose_disconnect false conn itf).2 = [Act.irqsave, Act.irqrestore] ∧
    Act.attachCtx ∉ (netclose_disconnect false conn itf).2 ∧
    Act.installCb ∉ (netclose_disconnect false conn itf).2 ∧
    Act.txnotify ∉ (netclose_disconnect false conn itf).2 ∧
    Act.semWait ∉ (netclose_disconnect false conn itf).2 ∧
    ∀ n : Nat, Act.setDataFlags n ∉ (netclose_disconnect false conn itf).2 := by
  have ht : (netclose_disconnect false conn itf).2 = [Act.irqsave, Act.irqrestore] := rfl
  refine ⟨rfl, ht, ?_, ?_, ?_, ?_, ?_⟩
  · rw [ht]; simp
  · rw [ht]; simp
  · rw [ht]; simp
  · rw [ht]; simp
  · intro n; rw [ht]; simp

/-- C8: on a connected socket, `netclose_disconnect` initializes a close
wait context, writes the full event set `UIP_NEWDATA|UIP_CLOSE|UIP_ABORT`
to the connection, attaches the wait context, installs the event
callback, notifies the link layer of pending TX data, and blocks — in
exactly that order — and after it returns the connection's event-flags
word is zero and its wait-context and callback references are both NULL,
whatever the notifier did to the record during the wait. -/
theorem disconnect_connected (conn : UipConn) (itf : UipConn → UipConn) :
    (netclose_disconnect true conn itf).2 =
      [Act.irqsave, Act.semInit,
       Act.setDataFlags (UIP_NEWDATA ||| UIP_CLOSE ||| UIP_ABORT),
       Act.attachCtx, Act.installCb, Act.txnotify, Act.semWait, Act.semDestroy,
       Act.clearDataFlags, Act.detachCtx, Act.clearCb, Act.irqrestore] ∧
    (netclose_disconnect true conn itf).1.data_flags = 0 ∧
    (netclose_disconnect true conn itf).1.data_private = false ∧
    (netclose_disconnect true conn itf).1.data_event = false :=
  ⟨rfl, rfl, rfl, rfl⟩

/-- C1 fails on the code: in `netclose_disconnect` on a connected socket
the blocking `sem_wait` is reached after `irqsave` with no intervening
`irqrestore`, i.e. the wait occurs while the critical section entered at
the start is still held (shown at a concrete connection record with the
identity interference). -/
theorem disconnect_wait_inside_critical_cex :
    (netclose_disconnect true ⟨0, false, false⟩ id).2 =
      [Act.irqsave, Act.semInit,
       Act.setDataFlags (UIP_NEWDATA ||| UIP_CLOSE ||| UIP_ABORT),
       Act.attachCtx, Act.installCb, Act.txnotify]
      ++ Act.semWait ::
      [Act.semDestroy, Act.clearDataFlags, Act.detachCtx, Act.clearCb, Act.irqrestore] ∧
    Act.irqsave ∈
      [Act.irqsave, Act.semInit,
       Act.setDataFlags (UIP_NEWDATA ||| UIP_CLOSE ||| UIP_ABORT),
       Act.attachCtx, Act.installCb, Act.txnotify] ∧
    Act.irqrestore ∉
      [Act.irqsave, Act.semInit,
       Act.setDataFlags (UIP_NEWDATA ||| UIP_CLOSE ||| UIP_ABORT),
       Act.attachCtx, Act.installCb, Act.txnotify] := by
  refine ⟨rfl, ?_, ?_⟩ <;> decide

/-- C1 amended: in `netclose_disconnect` on a connected socket the
critical section entered at the start is held across the blocking wait:
the first action is `irqsave`, the wait occurs before any `irqrestore`,
and the single `irqrestore` is the last action, after the post-wait
cleanup. -/
theorem disconnect_critical_held_across_wait (conn : UipConn) (itf : UipConn → UipConn) :
    (netclose_disconnect true conn itf).2.head? = some Act.irqsave ∧
    ((netclose_disconnect true conn itf).2.takeWhile
        (fun a => !(a == Act.irqrestore))).contains Act.semWait = true ∧
    (netclose_disconnect true conn itf).2.getLast? = some Act.irqrestore ∧
    (netclose_disconnect true conn itf).2.count Act.irqrestore = 1 :=
  ⟨rfl, rfl, rfl, rfl⟩

/-- C5: when the socket handle does not resolve to a valid, referenced
socket (`NULL`, or `s_crefs <= 0`), or the socket's type is neither
`SOCK_STREAM` nor `SOCK_DGRAM`, `net_close` returns `ERROR` with `EBADF`
recorded for the caller, performs no teardown action, and leaves the
connection record unchanged. -/
theorem net_close_invalid (psock : Option Socket) (itf : UipConn → UipConn)
    (h : psock = none ∨
      ∃ s : Socket, psock = some s ∧ (s.s_crefs ≤ 0 ∨ s.s_type = SockType.other)) :
    (net_close psock itf).ret = ERROR ∧
    (net_close psock itf).errno = some EBADF ∧
    (net_close psock itf).trace = [] ∧
    (net_close psock itf).conn = Option.map Socket.s_conn psock := by
  rcases h with h | ⟨s, rfl, hs⟩
  · subst h
    exact ⟨rfl, rfl, rfl, rfl⟩
  · rcases hs with hc | ht
    · simp [net_close, hc]
    · by_cases hc : s.s_crefs ≤ 0 <;> simp [net_close, hc, ht]

theorem net_close_invalid_witness :
    (net_close none id).ret = ERROR ∧
    (net_close none id).errno = some EBADF ∧
    (net_close none id).trace = [] ∧
    (net_close none id).conn = Option.map Socket.s_conn none :=
  net_close_invalid none id (Or.inl rfl)

/-- C6: on a valid `SOCK_DGRAM` socket, `net_close` frees the connection
record directly (`uip_udpfree`) and releases the socket's table entry,
returning success; the Disconnect Coordinator is never invoked (no
critical section is entered, no wait context attached, no blocking). -/
theorem net_close_dgram (s : Socket) (itf : UipConn → UipConn)
    (hc : 0 < s.s_crefs) (ht : s.s_type = SockType.sockDgram) :
    net_close (some s) itf =
      { ret := OK, errno := none, conn := some s.s_conn,
        trace := [Act.udpfree, Act.release] } ∧
    Act.irqsave ∉ (net_close (some s) itf).trace ∧
    Act.attachCtx ∉ (net_close (some s) itf).trace ∧
    Act.semWait ∉ (net_close (some s) itf).trace := by
  have h1 : ¬ s.s_crefs ≤ 0 := not_le.mpr hc
  have he : net_close (some s) itf =
      { ret := OK, errno := none, conn := some s.s_conn,
        trace := [Act.udpfree, Act.release] } := by
    simp [net_close, h1, ht]
  refine ⟨he, ?_, ?_, ?_⟩ <;> rw [he] <;> simp

theorem net_close_dgram_witness :
    (0 : Int) < 1 ∧
    (net_close (some ⟨1, SockType.sockDgram, false, ⟨3, false, false⟩⟩) id =
      { ret := OK, errno := none, conn := some ⟨3, false, false⟩,
        trace := [Act.udpfree, Act.release] } ∧
     Act.irqsave ∉ (net_close (some ⟨1, SockType.sockDgram, false, ⟨3, false, false⟩⟩) id).trace ∧
     Act.attachCtx ∉ (net_close (some ⟨1, SockType.sockDgram, false, ⟨3, false, false⟩⟩) id).trace ∧
     Act.semWait ∉ (net_close (some ⟨1, SockType.sockDgram, false, ⟨3, false, false⟩⟩) id).trace) :=
  ⟨by decide,
   net_close_dgram ⟨1, SockType.sockDgram, false, ⟨3, false, false⟩⟩ id (by decide) rfl⟩

/-- C9: on a valid `SOCK_STREAM` socket, `net_close` performs its
teardown in order — `uip_unlisten` first, then the Disconnect
Coordinator synchronously, then `uip_tcpfree` — and afterwards releases
the socket's table entry (last action of the trace) and returns `OK`
with no error recorded. -/
theorem net_close_stream (s : Socket) (itf : UipConn → UipConn)
    (hc : 0 < s.s_crefs) (ht : s.s_type = SockType.sockStream) :
    (net_close (some s) itf).ret = OK ∧
    (net_close (some s) itf).errno = none ∧
    (net_close (some s) itf).conn =
      some (netclose_disconnect s.connected s.s_conn itf).1 ∧
    (net_close (some s) itf).trace =
      Act.unlisten ::
        ((netclose_disconnect s.connected s.s_conn itf).2 ++ [Act.tcpfree, Act.release]) := by
  have h1 : ¬ s.s_crefs ≤ 0 := not_le.mpr hc
  simp [net_close, h1, ht]

theorem net_close_stream_witness :
    (0 : Int) < 1 ∧
    ((net_close (some ⟨1, SockType.sockStream, true, ⟨3, false, false⟩⟩) id).ret = OK ∧
     (net_close (some ⟨1, SockType.sockStream, true, ⟨3, false, false⟩⟩) id).errno = none ∧
     (net_close (some ⟨1, SockType.sockStream, true, ⟨3, false, false⟩⟩) id).conn =
       some (netclose_disconnect true ⟨3, false, false⟩ id).1 ∧
     (net_close (some ⟨1, SockType.sockStream, true, ⟨3, false, false⟩⟩) id).trace =
       Act.unlisten ::
         ((netclose_disconnect true ⟨3, false, false⟩ id).2 ++ [Act.tcpfree, Act.release])) :=
  ⟨by decide,
   net_close_stream ⟨1, SockType.sockStream, true, ⟨3, false, false⟩⟩ id (by decide) rfl⟩

end NetClose
